import Mathlib

/-!
# Verification of the duckmon-agents-ai runtime against its specification

Shallow embedding of the JavaScript sources of the `duckmon-agents-ai`
repository (supervisor, hub confluence engine, wallet/chain client, whale
scanner, price service, technical-analysis library, trading oracle,
prediction bot, advisor module), together with theorems checking the
specification's claims against the embedded code.

Numeric convention: JavaScript numbers are modelled as exact rationals `ℚ`
(idealised real arithmetic); `BigInt` block numbers as `ℤ`; fallible
operations return `Option`/sum-typed results.  `Math.sqrt` (a primitive the
code treats as a black box) is a parameter `jsSqrt` of the definitions that
call it.
-/

namespace Duckmon

/-- `Math.round` of JavaScript: round half toward positive infinity. -/
def jsRound (q : ℚ) : ℤ := ⌊q + 1/2⌋

/-- `+x.toFixed(3)`: value rounded to the nearest multiple of `1/1000`
(ties toward the larger result, as specified for `Number.prototype.toFixed`). -/
def toFixed3 (q : ℚ) : ℚ := (jsRound (q * 1000) : ℚ) / 1000

/-- `a || b` on JavaScript numbers: `0` (and only `0`, in our idealisation)
is falsy. -/
def jsOrQ (q d : ℚ) : ℚ := if q = 0 then d else q

/-! ## Supervisor (`src/orchestrator.mjs`)

Per-child health record and the `exit` handler of `runAgent`
(`src/orchestrator.mjs` lines 63-84).  An exit event carries the exit
`code : Option ℤ` (`none` models JavaScript `null`, the signal-kill case).
The handler result pairs the updated health record with the relaunch delay
scheduled by `setTimeout` (`none` when no restart is scheduled). -/

def MAX_RESTART_DELAY : ℕ := 300000

def INITIAL_RESTART_DELAY : ℕ := 5000

structure AgentHealth where
  restarts : ℕ
  restartDelay : ℕ
  status : String
  deriving Repr, DecidableEq

def initialHealth : AgentHealth :=
  { restarts := 0, restartDelay := INITIAL_RESTART_DELAY, status := "STARTING" }

/-- The `proc.on('exit', code => ...)` handler: a crash (code neither `0`
nor `null`) schedules a relaunch after `min(restartDelay, MAX)` and doubles
the stored delay (capped); a clean exit schedules nothing. -/
def onChildExit (h : AgentHealth) (code : Option ℤ) : AgentHealth × Option ℕ :=
  if code ≠ some 0 ∧ code ≠ none then
    let delay := min h.restartDelay MAX_RESTART_DELAY
    ({ restarts := h.restarts + 1,
       restartDelay := min (delay * 2) MAX_RESTART_DELAY,
       status := "STOPPED" }, some delay)
  else
    ({ h with status := "STOPPED" }, none)

/-- Run a sequence of consecutive crash exits (each with the given nonzero
exit code) from a given health record; returns the final record and the
delay scheduled after the *last* crash of the sequence. -/
def runCrashes (h : AgentHealth) : List ℤ → AgentHealth × Option ℕ
  | [] => (h, none)
  | c :: cs =>
    let step := onChildExit h (some c)
    match cs with
    | [] => step
    | _ :: _ => runCrashes step.1 cs

/-! ## Hub confluence engine (`src/ws-server.js` lines 80-130)

`state.agentSignals` is modelled as a partial map from agent name to the
latest signal.  The `breakdown` / `agreement` diagnostic fields of the
result (not touched by any claim) are not modelled. -/

structure HubSignal where
  type : String
  confidence : ℚ
  category : String
  receivedAt : ℤ
  deriving Repr, DecidableEq

def SIGNAL_EXPIRY : ℤ := 20 * 60 * 1000

def AGENT_WEIGHTS : List (String × ℚ) :=
  [("Trading Oracle v3.0", 0.30),
   ("Market Analyzer v3.0", 0.20),
   ("Prediction Bot v3.0", 0.15),
   ("Liquidity Sentinel v1.0", 0.12),
   ("Social Sentiment v1.0", 0.10),
   ("On-Chain Analytics v1.0", 0.08),
   ("Whale Observer v2.0", 0.05)]

/-- `SIGNAL_TO_SCORE[t] || 0`: `BUY ↦ 1`, `SELL ↦ -1`, anything else
(including `HOLD` and unknown strings, which JavaScript maps to
`undefined || 0`) gives `0`. -/
def SIGNAL_TO_SCORE (t : String) : ℚ :=
  if t = "BUY" then 1 else if t = "SELL" then -1 else 0

structure ConfluenceResult where
  consensus : String
  strength : ℤ
  /-- `normalizedScore` is absent (`none`) on the empty branch;
  otherwise it is the 3-decimal rendering `+normalizedScore.toFixed(3)`. -/
  normalizedScore : Option ℚ
  agentCount : ℕ
  deriving Repr, DecidableEq

/-- One step of the `for (const [name, weight] of Object.entries(AGENT_WEIGHTS))`
loop, accumulating `(weightedSum, totalWeight, agentCount)`. -/
def confluenceStep (sig : String → Option HubSignal) (now : ℤ)
    (acc : ℚ × ℚ × ℕ) (nw : String × ℚ) : ℚ × ℚ × ℕ :=
  match sig nw.1 with
  | none => acc
  | some s =>
    if now - s.receivedAt > SIGNAL_EXPIRY then acc
    else
      let score := SIGNAL_TO_SCORE s.type * (s.confidence / 100)
      (acc.1 + score * nw.2, acc.2.1 + nw.2, acc.2.2 + 1)

def computeConfluenceScore (sig : String → Option HubSignal) (now : ℤ) :
    ConfluenceResult :=
  let acc := AGENT_WEIGHTS.foldl (confluenceStep sig now) (0, 0, 0)
  let weightedSum := acc.1
  let totalWeight := acc.2.1
  let agentCount := acc.2.2
  if totalWeight = 0 then
    { consensus := "HOLD", strength := 0, normalizedScore := none, agentCount := 0 }
  else
    let normalizedScore := weightedSum / totalWeight
    let consensus :=
      if normalizedScore > 0.15 then "BUY"
      else if normalizedScore < -0.15 then "SELL"
      else "HOLD"
    let strength := min 95 (jsRound (|normalizedScore| * 100))
    { consensus := consensus, strength := strength,
      normalizedScore := some (toFixed3 normalizedScore),
      agentCount := agentCount }

/-! Specification-side consensus formulas (§4.7.1 of the spec / claim C1):
the fresh contributors, their weighted sum and total weight written as
sums over a filtered list. -/

/-- Does the agent have a latest signal received within the last 20
minutes? -/
def signalFresh (sig : String → Option HubSignal) (now : ℤ) (name : String) :
    Bool :=
  match sig name with
  | none => false
  | some s => now - s.receivedAt ≤ SIGNAL_EXPIRY

/-- The contribution `sign(type) · (confidence/100) · weight` of one
weighted agent. -/
def agentTerm (sig : String → Option HubSignal) (nw : String × ℚ) : ℚ :=
  match sig nw.1 with
  | some s => SIGNAL_TO_SCORE s.type * (s.confidence / 100) * nw.2
  | none => 0

/-- The fresh sub-list of a weight table. -/
def freshAgentsIn (sig : String → Option HubSignal) (now : ℤ)
    (l : List (String × ℚ)) : List (String × ℚ) :=
  l.filter fun nw => signalFresh sig now nw.1

/-- The agents among the seven weighted ones whose latest signal is fresh. -/
def freshAgents (sig : String → Option HubSignal) (now : ℤ) :
    List (String × ℚ) :=
  freshAgentsIn sig now AGENT_WEIGHTS

def specWeightedSum (sig : String → Option HubSignal) (now : ℤ) : ℚ :=
  ((freshAgents sig now).map (agentTerm sig)).sum

def specTotalWeight (sig : String → Option HubSignal) (now : ℤ) : ℚ :=
  ((freshAgents sig now).map (·.2)).sum

def specNormalized (sig : String → Option HubSignal) (now : ℤ) : ℚ :=
  specWeightedSum sig now / specTotalWeight sig now

/-- The concrete scenario of claim C1 (spec scenario S3): Trading BUY@80,
Market HOLD@50, Prediction SELL@60, Liquidity BUY@70, all received at
time 0; every other agent absent. -/
def exampleSignals : String → Option HubSignal := fun name =>
  if name = "Trading Oracle v3.0" then
    some { type := "BUY", confidence := 80, category := "technical", receivedAt := 0 }
  else if name = "Market Analyzer v3.0" then
    some { type := "HOLD", confidence := 50, category := "market", receivedAt := 0 }
  else if name = "Prediction Bot v3.0" then
    some { type := "SELL", confidence := 60, category := "prediction", receivedAt := 0 }
  else if name = "Liquidity Sentinel v1.0" then
    some { type := "BUY", confidence := 70, category := "liquidity", receivedAt := 0 }
  else none

/-! ## Hub client heartbeat (`src/shared/websocketClient.js` lines 102-154)
and the Hub heartbeat endpoint (`src/ws-server.js` lines 547-560) -/

/-- Body of the POST issued by `sendHeartbeat(agentId)`:
`JSON.stringify({ agentId })`.  Fields absent from the JSON object are
`none`. -/
structure HeartbeatBody where
  agentId : Option String
  agentName : Option String
  status : Option String
  uptime : Option ℚ
  deriving Repr, DecidableEq

def sendHeartbeatBody (agentId : String) : HeartbeatBody :=
  { agentId := some agentId, agentName := none, status := none, uptime := none }

/-- JavaScript truthiness of an optional string (absent and `""` are falsy). -/
def jsTruthyStr : Option String → Bool
  | none => false
  | some s => s ≠ ""

structure AgentEntry where
  status : String
  uptime : ℚ
  lastHeartbeat : ℤ
  deriving Repr, DecidableEq

/-- `state.agents`, an assoc list keyed by agent name (overwrite-on-write). -/
def AgentsMap := List (String × AgentEntry)

def AgentsMap.set (m : AgentsMap) (k : String) (v : AgentEntry) : AgentsMap :=
  (k, v) :: (List.filter (fun p => p.1 ≠ k) m)

/-- `app.post('/api/agent/heartbeat')`: missing `agentName` returns 400 and
leaves the `agents` map unchanged; otherwise the entry is overwritten.
Result is `(HTTP status, updated agents map)`. -/
def handleHeartbeat (agents : AgentsMap) (body : HeartbeatBody) (now : ℤ) :
    ℕ × AgentsMap :=
  if ¬ jsTruthyStr body.agentName then (400, agents)
  else
    match body.agentName with
    | some name =>
      (200, agents.set name
        { status := (body.status.getD "RUNNING"),
          uptime := (body.uptime.getD 0),
          lastHeartbeat := now })
    | none => (400, agents)

/-! ## Chain client `postSignal` (`src/shared/wallet.js` lines 86-110)
and the registry contract (`src/contracts-deploy/DuckmonAgent.sol`) -/

/-- Arguments of the `postSignal` transaction as encoded by the client:
`[signalType, BigInt(Math.round(confidence)), priceWei, reason]`. -/
structure SignalTxArgs where
  signalType : String
  confidence : ℤ
  priceWei : ℤ
  reason : String
  deriving Repr, DecidableEq

/-- The client-side `postSignal` up to transaction submission: with no
wallet it returns `none` (the function returns `false` without sending);
with a wallet it builds and submits the transaction *without any
confidence validation*. -/
def clientPostSignalTx (hasWallet : Bool) (signalType : String)
    (confidence : ℚ) (priceWei : ℤ) (reason : String) : Option SignalTxArgs :=
  if hasWallet then
    some { signalType := signalType, confidence := jsRound confidence,
           priceWei := priceWei, reason := reason }
  else none

/-- Per-sender view of the contract state used by `postSignal`. -/
structure ContractState where
  isRegistered : Bool
  totalSignals : ℕ
  deriving Repr, DecidableEq

/-- `DuckmonAgent.postSignal`: `require(registered)`, then
`require(confidence <= 100)`, then records the signal. -/
def contractPostSignal (st : ContractState) (args : SignalTxArgs) :
    Except String ContractState :=
  if ¬ st.isRegistered then .error "Agent not registered"
  else if ¬ (args.confidence ≤ 100) then .error "Confidence must be 0-100"
  else .ok { st with totalSignals := st.totalSignals + 1 }

/-- End-to-end client call: submit, wait for the receipt, return `true`
(the tx succeeded) or `false` (no wallet, or the transaction reverted and
the error was caught). The second component is the resulting contract
state. -/
def postSignalRun (hasWallet : Bool) (st : ContractState) (signalType : String)
    (confidence : ℚ) (priceWei : ℤ) (reason : String) : Bool × ContractState :=
  match clientPostSignalTx hasWallet signalType confidence priceWei reason with
  | none => (false, st)
  | some tx =>
    match contractPostSignal st tx with
    | .ok st' => (true, st')
    | .error _ => (false, st)

/-! ## Whale transfer scanner (`src/unnamed/part_008`, `scanTransferEvents`)

Module state is the BigInt cursor `lastScannedBlock` (initially `0`).  One
invocation observes the current block number and whether the `getLogs` RPC
succeeds; it returns the new cursor and the scanned inclusive block range
(`none` when nothing was scanned). -/

def LOOKBACK_BLOCKS : ℤ := 500

/-- The `if (lastScannedBlock === 0n) lastScannedBlock = currentBlock - LOOKBACK`
first-run rewrite, applied before any other check. -/
def firstRunCursor (lastScanned currentBlock : ℤ) : ℤ :=
  if lastScanned = 0 then currentBlock - LOOKBACK_BLOCKS else lastScanned

def scanStep (lastScanned : ℤ) (currentBlock : ℤ) (logsOk : Bool) :
    ℤ × Option (ℤ × ℤ) :=
  if currentBlock ≤ firstRunCursor lastScanned currentBlock then
    (firstRunCursor lastScanned currentBlock, none)
  else if logsOk then
    (currentBlock, some (firstRunCursor lastScanned currentBlock + 1, currentBlock))
  else (firstRunCursor lastScanned currentBlock, none)

/-- Run a sequence of scans (pairs of observed current block and `getLogs`
success); returns the final cursor and the list of scanned ranges in
order. -/
def scanTrace (ls : ℤ) : List (ℤ × Bool) → ℤ × List (ℤ × ℤ)
  | [] => (ls, [])
  | (cur, ok) :: rest =>
    let step := scanStep ls cur ok
    let tail := scanTrace step.1 rest
    (tail.1, match step.2 with | some r => r :: tail.2 | none => tail.2)

/-! ## Price service (`src/unnamed/part_006`, `fetchPrice`)

The HTTP and RPC layers are inputs: `primary : Option (List DexPair)` is
the decoded aggregator response (`none` when the fetch threw or the JSON
had no `pairs` array), `lens : Option ℚ` is `formatEther(result[1])` of the
on-chain quote (`none` when the read threw).  Only the sample fields that
the fallback and cache branches populate are modelled; the extra
DexScreener-only data fields carry no control flow. -/

structure DexPair where
  /-- `pair.priceNative` — `none` when the field is absent (non-empty
  strings, `"0"` included, are truthy). -/
  priceNative : Option ℚ
  priceUsd : Option ℚ
  /-- `pair.liquidity?.usd || 0` is modelled by `getD 0`. -/
  liquidityUsd : Option ℚ
  volumeH24 : Option ℚ
  deriving Repr, DecidableEq

structure PriceSample where
  price : ℚ
  timestamp : ℤ
  source : String
  volume : ℚ
  deriving Repr, DecidableEq

structure FetchState where
  /-- the per-token cache slot: `some (data, storedAt)` after `setCache`. -/
  cache : Option (PriceSample × ℤ)
  lastKnownPrice : ℚ
  deriving Repr, DecidableEq

/-- Module-initial state: empty cache, `_lastKnownPrice = 0.000019`. -/
def initialFetchState : FetchState := { cache := none, lastKnownPrice := 0.000019 }

def CACHE_TTL : ℤ := 5000

/-- `data.pairs.sort((a,b) => liq(b) - liq(a))[0]`: the first pair attaining
the maximum liquidity. -/
def pickBestPair (ps : List DexPair) : Option DexPair :=
  ps.foldl
    (fun acc p =>
      match acc with
      | none => some p
      | some q => if p.liquidityUsd.getD 0 > q.liquidityUsd.getD 0 then some p else some q)
    none

/-- `parseFloat(pair.priceNative || pair.priceUsd || 0)` under the string
truthiness of the JSON fields. -/
def pairPriceNum (p : DexPair) : ℚ :=
  match p.priceNative with
  | some x => x
  | none => match p.priceUsd with
    | some y => y
    | none => 0

/-- Fallback chain of `fetchPrice` after a cache miss and a failed (or
unusable) primary response: the Lens on-chain quote, then the last-known
price, then `none`. -/
def fetchPriceFallback (st : FetchState) (now : ℤ) (isDuck : Bool)
    (lens : Option ℚ) : Option PriceSample × FetchState :=
  let lastResort : Option PriceSample × FetchState :=
    if isDuck ∧ st.lastKnownPrice > 0 then
      (some { price := st.lastKnownPrice, timestamp := now, source := "cached",
              volume := 0 }, st)
    else (none, st)
  if isDuck then
    match lens with
    | some duckPerMon =>
      let priceInMon := if duckPerMon > 0 then 1 / duckPerMon else st.lastKnownPrice
      if priceInMon < 0.0000001 ∨ priceInMon > 1000 then
        (some { price := st.lastKnownPrice, timestamp := now, source := "cached",
                volume := 0 }, st)
      else
        let d : PriceSample := { price := priceInMon, timestamp := now,
                                 source := "nad.fun Lens", volume := 0 }
        (some d, { cache := some (d, now), lastKnownPrice := priceInMon })
    | none => lastResort
  else lastResort

/-- "Method 1" of `fetchPrice`: the DexScreener aggregator, falling back
to the Lens chain of `fetchPriceFallback` when no usable pair exists. -/
def fetchPricePrimary (st : FetchState) (now : ℤ) (isDuck : Bool)
    (primary : Option (List DexPair)) (lens : Option ℚ) :
    Option PriceSample × FetchState :=
  match primary with
  | some ps =>
    if ps.length > 0 then
      match pickBestPair ps with
      | some pair =>
        let priceNum := pairPriceNum pair
        if priceNum > 0 then
          let result : PriceSample :=
            { price := priceNum, timestamp := now, source := "DexScreener",
              volume := pair.volumeH24.getD 0 }
          (some result,
           { cache := some (result, now),
             lastKnownPrice := if isDuck then priceNum else st.lastKnownPrice })
        else fetchPriceFallback st now isDuck lens
      | none => fetchPriceFallback st now isDuck lens
    else fetchPriceFallback st now isDuck lens
  | none => fetchPriceFallback st now isDuck lens

def fetchPrice (st : FetchState) (now : ℤ) (isDuck : Bool)
    (primary : Option (List DexPair)) (lens : Option ℚ) :
    Option PriceSample × FetchState :=
  -- cache hit: a copy of the cached data with source overwritten
  match st.cache with
  | some (d, ts) =>
    if now - ts < CACHE_TTL then (some { d with source := "cache" }, st)
    else fetchPricePrimary st now isDuck primary lens
  | none => fetchPricePrimary st now isDuck primary lens

/-! ## Advisor module (`src/unnamed/part_004`, `callGeminiAPI`)

Attempt outcomes are an oracle indexed by attempt number: `fail` models a
thrown fetch / non-ok response, `ok t` a 200 response whose extracted text
is `t` (possibly `null`).  The function returns the final result, the
total number of attempts made, and the list of waits (ms) inserted between
consecutive attempts. -/

inductive GeminiAttempt where
  | fail
  | ok (text : Option String)
  deriving Repr, DecidableEq

def geminiRetry (attempt : ℕ → GeminiAttempt) :
    ℕ → ℕ → Option String × ℕ × List ℕ
  | retries, idx =>
    match attempt idx with
    | .ok t => (t, 1, [])
    | .fail =>
      match retries with
      | 0 => (none, 1, [])
      | r + 1 =>
        let rec_ := geminiRetry attempt r (idx + 1)
        (rec_.1, rec_.2.1 + 1, 1000 :: rec_.2.2)

def AI_maxRetries : ℕ := 3

def callGeminiAPI (hasKey : Bool) (attempt : ℕ → GeminiAttempt) :
    Option String × ℕ × List ℕ :=
  if hasKey then geminiRetry attempt AI_maxRetries 0
  else (none, 0, [])

/-! ## Technical-analysis library (`src/unnamed/part_005`)

Pure functions over oldest-first price lists.  `Math.sqrt` is the
parameter `jsSqrt` wherever the source calls it. -/

/-- Consecutive differences `prices[i] - prices[i-1]`. -/
def priceChanges (l : List ℚ) : List ℚ :=
  (l.zip (l.drop 1)).map fun ab => ab.2 - ab.1

/-- `Math.max(...l)`; every call site passes a non-empty list. -/
def listMax (l : List ℚ) : ℚ := l.foldl max (l.head?.getD 0)

/-- `Math.min(...l)`; every call site passes a non-empty list. -/
def listMin (l : List ℚ) : ℚ := l.foldl min (l.head?.getD 0)

/-- The last `n` elements, `l.slice(-n)`. -/
def lastN (l : List ℚ) (n : ℕ) : List ℚ := l.drop (l.length - n)

def calculateSMA (prices : List ℚ) (period : ℕ) : ℚ :=
  if prices.length < period then prices.getLast?.getD 0
  else (lastN prices period).sum / period

def calculateEMA (prices : List ℚ) (period : ℕ) : ℚ :=
  if prices.length = 0 then 0
  else if prices.length < period then calculateSMA prices prices.length
  else
    let k : ℚ := 2 / ((period : ℚ) + 1)
    let init := calculateSMA (prices.take period) period
    (prices.drop period).foldl (fun ema p => p * k + ema * (1 - k)) init

def calculateRSI (prices : List ℚ) (period : ℕ) : ℚ :=
  if prices.length < period + 1 then 50
  else
    let changes := priceChanges (lastN prices (period + 1))
    let gains := (changes.filter fun c => c > 0).sum
    let losses := -((changes.filter fun c => ¬ c > 0).sum)
    let avgGain := gains / period
    let avgLoss := losses / period
    if avgLoss = 0 then 100
    else 100 - 100 / (1 + avgGain / avgLoss)

structure MACDResult where
  value : ℚ
  signal : ℚ
  histogram : ℚ
  deriving Repr, DecidableEq

def calculateMACD (prices : List ℚ) (fastPeriod slowPeriod signalPeriod : ℕ) :
    MACDResult :=
  if prices.length < slowPeriod + signalPeriod then ⟨0, 0, 0⟩
  else
    let lookback := min (signalPeriod + 10) (prices.length - slowPeriod)
    -- MACD-line values at successive trailing windows, oldest first
    -- (the source builds this list with `unshift`)
    let macdValues := ((List.range lookback).map fun i =>
      let slice := prices.take (prices.length - i)
      calculateEMA slice fastPeriod - calculateEMA slice slowPeriod).reverse
    let macdLine := macdValues.getLast?.getD 0
    let signalLine :=
      if macdValues.length ≥ signalPeriod then calculateEMA macdValues signalPeriod
      else macdLine
    ⟨macdLine, signalLine, macdLine - signalLine⟩

structure BollingerResult where
  upper : ℚ
  middle : ℚ
  lower : ℚ
  bandwidth : ℚ
  percentB : ℚ
  deriving Repr, DecidableEq

def calculateBollingerBands (jsSqrt : ℚ → ℚ) (prices : List ℚ)
    (period : ℕ) (multiplier : ℚ) : BollingerResult :=
  if prices.length < period then
    let p := prices.getLast?.getD 0
    ⟨p, p, p, 0, 50⟩
  else
    let sma := calculateSMA prices period
    let variance := ((lastN prices period).map fun p => (p - sma) ^ 2).sum / (period : ℚ)
    let stdDev := jsSqrt variance
    let upper := sma + multiplier * stdDev
    let lower := sma - multiplier * stdDev
    let current := prices.getLast?.getD 0
    let bandwidth := if sma > 0 then (upper - lower) / sma * 100 else 0
    let percentB :=
      if upper ≠ lower then (current - lower) / (upper - lower) * 100 else 50
    ⟨upper, sma, lower, bandwidth, percentB⟩

def calculateMomentum (prices : List ℚ) (period : ℕ) : ℚ :=
  if prices.length < period + 1 then 0
  else
    let current := prices.getLast?.getD 0
    let past := (prices.drop (prices.length - 1 - period)).head?.getD 0
    if past ≠ 0 then (current - past) / past * 100 else 0

structure StochResult where
  k : ℚ
  d : ℚ
  deriving Repr, DecidableEq

def calculateStochasticRSI (prices : List ℚ)
    (rsiPeriod stochPeriod kSmooth dSmooth : ℕ) : StochResult :=
  if prices.length < rsiPeriod + stochPeriod + kSmooth then ⟨50, 50⟩
  else
    let rsiValues := (List.range' (rsiPeriod + 1) (prices.length - rsiPeriod)).map
      fun i => calculateRSI (prices.take i) rsiPeriod
    if rsiValues.length < stochPeriod then ⟨50, 50⟩
    else
      let kValues :=
        (List.range' (stochPeriod - 1) (rsiValues.length - (stochPeriod - 1))).map
          fun i =>
            let window := (rsiValues.take (i + 1)).drop (i + 1 - stochPeriod)
            let high := listMax window
            let low := listMin window
            if high ≠ low then (rsiValues.getD i 0 - low) / (high - low) * 100
            else 50
      let smoothK :=
        if kValues.length ≥ kSmooth then calculateSMA kValues kSmooth
        else jsOrQ (kValues.getLast?.getD 0) 50
      let smoothD :=
        if kValues.length ≥ dSmooth then calculateSMA (lastN kValues dSmooth) dSmooth
        else smoothK
      ⟨smoothK, smoothD⟩

def calculateVWAP (prices volumes : List ℚ) : ℚ :=
  if prices.length = 0 then 0
  else
    let len := min prices.length volumes.length
    let pv := (prices.take len).zip (volumes.take len)
    let sumPV := (pv.map fun x => x.1 * jsOrQ x.2 1).sum
    let sumV := (pv.map fun x => jsOrQ x.2 1).sum
    if sumV > 0 then sumPV / sumV else prices.getLast?.getD 0

structure IchimokuResult where
  tenkan : ℚ
  kijun : ℚ
  senkouA : ℚ
  senkouB : ℚ
  signal : String
  deriving Repr, DecidableEq

/-- `(max(slice) + min(slice)) / 2`. -/
def highLow (slice : List ℚ) : ℚ := (listMax slice + listMin slice) / 2

def calculateIchimokuCloud (prices : List ℚ) : IchimokuResult :=
  if prices.length < 52 then ⟨0, 0, 0, 0, "NEUTRAL"⟩
  else
    let tenkan := highLow (lastN prices 9)
    let kijun := highLow (lastN prices 26)
    let senkouA := (tenkan + kijun) / 2
    let senkouB := highLow (lastN prices 52)
    let current := prices.getLast?.getD 0
    let sig :=
      if current > senkouA ∧ current > senkouB ∧ tenkan > kijun then "STRONG_BULLISH"
      else if current > senkouA ∧ current > senkouB then "BULLISH"
      else if current < senkouA ∧ current < senkouB ∧ tenkan < kijun then "STRONG_BEARISH"
      else if current < senkouA ∧ current < senkouB then "BEARISH"
      else "NEUTRAL"
    ⟨tenkan, kijun, senkouA, senkouB, sig⟩

structure TrendResult where
  direction : String
  strength : ℚ
  deriving Repr, DecidableEq

def calculateTrendStrength (prices : List ℚ) : TrendResult :=
  if prices.length < 20 then ⟨"NEUTRAL", 0⟩
  else
    let shortMA := calculateSMA prices 5
    let medMA := calculateSMA prices 10
    let longMA := calculateSMA prices 20
    if shortMA > medMA ∧ medMA > longMA then
      ⟨"BULLISH", min (if longMA > 0 then (shortMA - longMA) / longMA * 1000 else 0) 100⟩
    else if shortMA < medMA ∧ medMA < longMA then
      ⟨"BEARISH", min (if longMA > 0 then (longMA - shortMA) / longMA * 1000 else 0) 100⟩
    else ⟨"NEUTRAL", 10⟩

/-! ## Trading oracle signal generator (`src/unnamed/part_013`, `generateSignal`)

The indicators that enter the weighted vote are exactly those read by the
scoring block (lines 46-78); `atr`, `fearGreed`, `regime`,
`supportResistance` and `volatility` only feed display strings.  The
`detailedReason` display string interpolates `toFixed` renderings of the
indicators; its exact text is irrelevant to every claim and is represented
by the constant `detailedReasonText`. -/

def detailedReasonText : String := "technical indicator summary"

/-- Indicator weights of the scoring block:
`{ rsi: 0.20, macd: 0.15, bollinger: 0.15, trend: 0.15, ichimoku: 0.10,
stochRSI: 0.10, momentum: 0.10, vwap: 0.05 }`. -/
def tradingScores (jsSqrt : ℚ → ℚ) (prices volumes : List ℚ) : ℚ × ℚ :=
  -- generateFullAnalysis: volumes default to all-ones when empty
  let v := if volumes.length > 0 then volumes else prices.map fun _ => 1
  let rsi := calculateRSI prices 14
  let macd := calculateMACD prices 12 26 9
  let bollinger := calculateBollingerBands jsSqrt prices 20 2
  let stochasticRSI := calculateStochasticRSI prices 14 14 3 3
  let trend := calculateTrendStrength prices
  let momentum := calculateMomentum prices 10
  let vwap := calculateVWAP prices v
  let ichimoku := calculateIchimokuCloud prices
  let currentPrice := prices.getLast?.getD 0
  let buy : ℚ :=
    (if rsi < 30 then 0.20 * (1 + (30 - rsi) / 30) else 0)
    + (if macd.histogram > 0 ∧ macd.value > 0 then 0.15 else 0)
    + (if bollinger.percentB < 10 then 0.15 else 0)
    + (if trend.direction = "BULLISH" then 0.15 * (trend.strength / 100) else 0)
    + (if ichimoku.signal = "STRONG_BULLISH" then 0.10
       else if ichimoku.signal = "BULLISH" then 0.10 * 0.5 else 0)
    + (if stochasticRSI.k < 20 ∧ stochasticRSI.d < 20 then 0.10 else 0)
    + (if momentum > 3 then 0.10 else 0)
    + (if vwap > 0 ∧ currentPrice < vwap * 0.98 then 0.05 else 0)
  let sell : ℚ :=
    (if rsi > 70 then 0.20 * (1 + (rsi - 70) / 30) else 0)
    + (if macd.histogram < 0 ∧ macd.value < 0 then 0.15 else 0)
    + (if bollinger.percentB > 90 then 0.15 else 0)
    + (if trend.direction = "BEARISH" then 0.15 * (trend.strength / 100) else 0)
    + (if ichimoku.signal = "STRONG_BEARISH" then 0.10
       else if ichimoku.signal = "BEARISH" then 0.10 * 0.5 else 0)
    + (if stochasticRSI.k > 80 ∧ stochasticRSI.d > 80 then 0.10 else 0)
    + (if momentum < -3 then 0.10 else 0)
    + (if vwap > 0 ∧ currentPrice > vwap * 1.02 then 0.05 else 0)
  (buy, sell)

/-- `netScore = buyScore - sellScore`. -/
def indicatorNetScore (jsSqrt : ℚ → ℚ) (prices volumes : List ℚ) : ℚ :=
  (tradingScores jsSqrt prices volumes).1 - (tradingScores jsSqrt prices volumes).2

structure TradingSignal where
  type : String
  confidence : ℤ
  reason : String
  price : ℚ
  deriving Repr, DecidableEq

def generateSignal (jsSqrt : ℚ → ℚ) (prices volumes : List ℚ) : TradingSignal :=
  if prices.length < 30 then
    { type := "HOLD", confidence := 30, reason := "Insufficient data",
      price := prices.getLast?.getD 0 }
  else
    let netScore := indicatorNetScore jsSqrt prices volumes
    let currentPrice := prices.getLast?.getD 0
    if netScore > 0.15 then
      { type := "BUY", confidence := jsRound (min (50 + |netScore| * 100) 95),
        reason := detailedReasonText, price := currentPrice }
    else if netScore < -0.15 then
      { type := "SELL", confidence := jsRound (min (50 + |netScore| * 100) 95),
        reason := detailedReasonText, price := currentPrice }
    else
      { type := "HOLD", confidence := jsRound (50 + |netScore| * 50),
        reason := detailedReasonText, price := currentPrice }

/-! ## Prediction bot (`src/prediction-bot/index.js`)

The per-horizon "neural networks" are constructed with `Math.random`
weights, so `PredictionEngine` is parameterised by the three network
functions (keyed `"short"`/`"medium"`/`"long"`) and by the `Math.random`
draws used for SIDEWAYS confidences (one per loop iteration). -/

structure PPoint where
  price : ℚ
  deriving Repr, DecidableEq

structure PredFeatures where
  current : ℚ
  rsi : ℚ
  trendStrength : ℚ
  volatility : ℚ
  deriving Repr, DecidableEq

/-- `PredictionEngine.calculateFeatures`. -/
def calculateFeatures (jsSqrt : ℚ → ℚ) (prices : List PPoint) :
    Option PredFeatures :=
  if prices.length < 30 then none
  else
    let ps := (prices.drop (prices.length - 30)).map (·.price)
    let current := ps.getLast?.getD 0
    let changes := priceChanges ps
    let gains := (changes.filter fun c => c > 0).sum
    let losses := -((changes.filter fun c => ¬ c > 0).sum)
    let rsi := 100 - 100 / (1 + (gains / 14) / jsOrQ (losses / 14) 0.001)
    let firstHalf := (ps.take 15).sum / 15
    let secondHalf := (ps.drop (ps.length - 15)).sum / 15
    let trendStrength := (secondHalf - firstHalf) / firstHalf
    let mean := ps.sum / (ps.length : ℚ)
    let volatility :=
      jsSqrt (((ps.map fun p => (p - mean) ^ 2).sum) / (ps.length : ℚ)) / mean
    some ⟨current, rsi, trendStrength, volatility⟩

/-- `CONFIG.PREDICTION_HORIZONS` (`src/prediction-bot/index.js` line 20). -/
def PREDICTION_HORIZONS : List ℕ := [5, 15, 60]

/-- `PredictionEngine.generateReason` (its `direction` argument is unused
by the body). -/
def predictionReason (f : PredFeatures) : String :=
  let reasons :=
    (if f.rsi < 30 then ["Oversold RSI"]
     else if f.rsi > 70 then ["Overbought RSI"] else [])
    ++ (if f.trendStrength > 0.02 then ["Strong uptrend"]
        else if f.trendStrength < -0.02 then ["Strong downtrend"] else [])
    ++ (if f.volatility > 0.05 then ["High volatility"] else [])
  if reasons.length > 0 then String.intercalate ", " reasons
  else "Technical analysis signals"

structure PredictionOut where
  direction : String
  confidence : ℤ
  horizon : ℕ
  reason : String
  currentPrice : Option ℚ
  expectedPrice : Option ℚ
  targetTime : Option ℤ
  deriving Repr, DecidableEq

/-- `PredictionEngine.generatePredictions` (lines 358-422): `nets` maps
the network key to the network's `predict` function, `rand i` is the
`Math.random()` draw of the i-th loop iteration (`0 ≤ rand i < 1`). -/
def generatePredictions (jsSqrt : ℚ → ℚ) (nets : String → List PPoint → ℚ)
    (rand : ℕ → ℚ) (now : ℤ) (prices : List PPoint) : List PredictionOut :=
  if prices.length < 50 then
    [{ direction := "SIDEWAYS", confidence := 30, horizon := 5,
       reason := "Insufficient data", currentPrice := none,
       expectedPrice := none, targetTime := none }]
  else
    match calculateFeatures jsSqrt prices with
    | none => []
    | some f =>
      PREDICTION_HORIZONS.enum.map fun (ih : ℕ × ℕ) =>
        let horizon : ℕ := ih.2
        let networkKey :=
          if horizon ≤ 5 then "short" else if horizon ≤ 15 then "medium" else "long"
        let rawPrediction := nets networkKey prices
        let technicalBoost :=
          (if f.rsi < 30 then 0.2 else if f.rsi > 70 then -0.2 else 0)
          + (if f.trendStrength > 0.02 then f.trendStrength * 5
             else if f.trendStrength < -0.02 then -(|f.trendStrength| * 5) else 0)
        let combined := rawPrediction + technicalBoost
        let expectedMove := combined * f.volatility * ((horizon : ℚ) / 5)
        let dirConf : String × ℚ :=
          if combined > 0.1 then ("UP", min (55 + |combined| * 100) 92)
          else if combined < -0.1 then ("DOWN", min (55 + |combined| * 100) 92)
          else ("SIDEWAYS", 50 + rand ih.1 * 10)
        let conf := if f.volatility > 0.1 then dirConf.2 * 0.85 else dirConf.2
        { direction := dirConf.1, confidence := jsRound conf, horizon := horizon,
          reason := predictionReason f, currentPrice := some f.current,
          expectedPrice := some (f.current * (1 + expectedMove)),
          targetTime := some (now + (horizon : ℤ) * 60 * 1000) }

/-! # Theorems -/

/-! ## Claim C3 — supervisor backoff -/

lemma onChildExit_crash (h : AgentHealth) (c : ℤ) (hc : c ≠ 0) :
    onChildExit h (some c) =
      ({ restarts := h.restarts + 1,
         restartDelay := min (min h.restartDelay MAX_RESTART_DELAY * 2) MAX_RESTART_DELAY,
         status := "STOPPED" }, some (min h.restartDelay MAX_RESTART_DELAY)) := by
  simp [onChildExit, hc]

lemma min_mul_min (a M k : ℕ) (hk : 1 ≤ k) : min (min a M * k) M = min (a * k) M := by
  rcases le_total a M with h | h
  · rw [min_eq_left h]
  · rw [min_eq_right h]
    have h1 : M ≤ M * k := Nat.le_mul_of_pos_right M hk
    have h2 : M ≤ a * k := le_trans h1 (Nat.mul_le_mul_right k h)
    rw [min_eq_right h1, min_eq_right h2]

lemma runCrashes_spec (cs : List ℤ) :
    ∀ h : AgentHealth, (∀ c ∈ cs, c ≠ 0) → cs ≠ [] →
      (runCrashes h cs).2 =
        some (min (h.restartDelay * 2 ^ (cs.length - 1)) MAX_RESTART_DELAY) ∧
      (runCrashes h cs).1.restartDelay =
        min (h.restartDelay * 2 ^ cs.length) MAX_RESTART_DELAY := by
  induction cs with
  | nil => intro h _ hne; exact absurd rfl hne
  | cons c cs ih =>
    intro h hall _
    have hc : c ≠ 0 := hall c (List.mem_cons_self c cs)
    match cs, ih with
    | [], _ =>
      rw [runCrashes, onChildExit_crash h c hc]
      constructor
      · simp
      · simpa using min_mul_min h.restartDelay MAX_RESTART_DELAY 2 (by norm_num)
    | c' :: cs', ih =>
      have hall' : ∀ x ∈ c' :: cs', x ≠ 0 := fun x hx => hall x (List.mem_cons_of_mem c hx)
      have hrun : runCrashes h (c :: c' :: cs') =
          runCrashes (onChildExit h (some c)).1 (c' :: cs') := rfl
      obtain ⟨ihd, ihr⟩ := ih (onChildExit h (some c)).1 hall' (by simp)
      have hrd : (onChildExit h (some c)).1.restartDelay =
          min (h.restartDelay * 2) MAX_RESTART_DELAY := by
        simp [onChildExit_crash h c hc,
          min_mul_min h.restartDelay MAX_RESTART_DELAY 2 (by norm_num)]
      rw [hrd] at ihd ihr
      have hlen1 : (c' :: cs').length - 1 = cs'.length := by simp
      have hlen2 : (c :: c' :: cs').length - 1 = cs'.length + 1 := by simp
      have hlen3 : (c :: c' :: cs').length = cs'.length + 2 := by simp
      constructor
      · rw [hrun, ihd, hlen1, hlen2,
          min_mul_min _ _ _ Nat.one_le_two_pow, mul_assoc, ← pow_succ']
      · have hl : (c' :: cs').length = cs'.length + 1 := by simp
        rw [hrun, ihr, hlen3, hl,
          min_mul_min _ _ _ Nat.one_le_two_pow, mul_assoc, ← pow_succ']

/-- **C3.** For every child and every non-empty sequence of consecutive
crashes (exit codes all nonzero; a `null` code is a signal-kill and is not
a crash), the delay scheduled before the next relaunch after the k-th
crash is `min(5s · 2^(k-1), 5min)`, and a clean exit (code 0 or signal
`null`) schedules no restart at all. -/
theorem supervisor_backoff (cs : List ℤ) (hcrash : ∀ c ∈ cs, c ≠ 0) (hne : cs ≠ []) :
    (runCrashes initialHealth cs).2 =
      some (min (INITIAL_RESTART_DELAY * 2 ^ (cs.length - 1)) MAX_RESTART_DELAY) ∧
    (∀ h : AgentHealth,
      (onChildExit h (some 0)).2 = none ∧ (onChildExit h none).2 = none) := by
  refine ⟨(runCrashes_spec cs initialHealth hcrash hne).1, fun h => ⟨?_, ?_⟩⟩
  · simp [onChildExit]
  · simp [onChildExit]

theorem supervisor_backoff_witness :
    (runCrashes initialHealth [1, -7, 2]).2 = some 20000 ∧
    (onChildExit initialHealth (some 0)).2 = none := by
  have h := supervisor_backoff [1, -7, 2] (by decide) (by decide)
  exact ⟨by rw [h.1]; rfl, (h.2 initialHealth).1⟩

/-! ## Claim C10 — heartbeat bodies never register an agent -/

/-- **C10.** The body produced by the shared hub client's
`sendHeartbeat(agentId)` carries an `agentId` field but no `agentName`
field, and the Hub's `/api/agent/heartbeat` endpoint answers 400 and
leaves the `agents` map unchanged on every such body; hence no heartbeat
sent through `startHeartbeat` (which only ever calls `sendHeartbeat`)
creates or refreshes an entry in the Hub's agents map. -/
theorem heartbeat_never_registers (agentId : String) (agents : AgentsMap) (now : ℤ) :
    (sendHeartbeatBody agentId).agentName = none ∧
    (sendHeartbeatBody agentId).agentId = some agentId ∧
    handleHeartbeat agents (sendHeartbeatBody agentId) now = (400, agents) := by
  refine ⟨rfl, rfl, ?_⟩
  simp [handleHeartbeat, sendHeartbeatBody, jsTruthyStr]

/-! ## Claim C1 — hub consensus formula -/

lemma confluence_foldl (sig : String → Option HubSignal) (now : ℤ) :
    ∀ (l : List (String × ℚ)) (a b : ℚ) (n : ℕ),
      l.foldl (confluenceStep sig now) (a, b, n) =
        (a + ((freshAgentsIn sig now l).map (agentTerm sig)).sum,
         b + ((freshAgentsIn sig now l).map (·.2)).sum,
         n + (freshAgentsIn sig now l).length) := by
  intro l
  induction l with
  | nil => intro a b n; simp [freshAgentsIn]
  | cons nw t ih =>
    intro a b n
    rw [List.foldl_cons]
    cases hs : sig nw.1 with
    | none =>
      have hstep : confluenceStep sig now (a, b, n) nw = (a, b, n) := by
        simp [confluenceStep, hs]
      have hfresh : signalFresh sig now nw.1 = false := by
        simp [signalFresh, hs]
      rw [hstep, ih]
      simp [freshAgentsIn, List.filter_cons, hfresh]
    | some s =>
      by_cases hf : now - s.receivedAt > SIGNAL_EXPIRY
      · have hstep : confluenceStep sig now (a, b, n) nw = (a, b, n) := by
          simp only [confluenceStep, hs]
          rw [if_pos hf]
        have hfresh : signalFresh sig now nw.1 = false := by
          simp only [signalFresh, hs, decide_eq_false_iff_not]
          omega
        rw [hstep, ih]
        simp [freshAgentsIn, List.filter_cons, hfresh]
      · have hstep : confluenceStep sig now (a, b, n) nw =
            (a + SIGNAL_TO_SCORE s.type * (s.confidence / 100) * nw.2,
             b + nw.2, n + 1) := by
          simp only [confluenceStep, hs]
          rw [if_neg hf]
        have hfresh : signalFresh sig now nw.1 = true := by
          simp only [signalFresh, hs, decide_eq_true_eq]
          omega
        rw [hstep, ih]
        simp only [freshAgentsIn, List.filter_cons, hfresh, if_true,
          List.map_cons, List.sum_cons, List.length_cons, Prod.mk.injEq,
          agentTerm, hs]
        refine ⟨by ring, by ring, by omega⟩

lemma computeConfluence_closed (sig : String → Option HubSignal) (now : ℤ) :
    computeConfluenceScore sig now =
      if specTotalWeight sig now = 0 then
        { consensus := "HOLD", strength := 0, normalizedScore := none,
          agentCount := 0 }
      else
        { consensus :=
            if specNormalized sig now > 0.15 then "BUY"
            else if specNormalized sig now < -0.15 then "SELL" else "HOLD",
          strength := min 95 (jsRound (|specNormalized sig now| * 100)),
          normalizedScore := some (toFixed3 (specNormalized sig now)),
          agentCount := (freshAgents sig now).length } := by
  unfold computeConfluenceScore specNormalized specWeightedSum specTotalWeight
    freshAgents
  rw [confluence_foldl sig now AGENT_WEIGHTS 0 0 0]
  simp only [zero_add]

lemma freshAgents_example :
    freshAgents exampleSignals 0 =
      [("Trading Oracle v3.0", 0.30), ("Market Analyzer v3.0", 0.20),
       ("Prediction Bot v3.0", 0.15), ("Liquidity Sentinel v1.0", 0.12)] := by
  simp [freshAgents, freshAgentsIn, AGENT_WEIGHTS, signalFresh, exampleSignals,
    SIGNAL_EXPIRY]

lemma specTotalWeight_example : specTotalWeight exampleSignals 0 = 0.77 := by
  rw [specTotalWeight, freshAgents_example]
  norm_num

lemma specWeightedSum_example : specWeightedSum exampleSignals 0 = 0.234 := by
  rw [specWeightedSum, freshAgents_example]
  simp [agentTerm, exampleSignals, SIGNAL_TO_SCORE]
  norm_num

lemma specNormalized_example : specNormalized exampleSignals 0 = 117 / 385 := by
  rw [specNormalized, specTotalWeight_example, specWeightedSum_example]
  norm_num

lemma confluence_example :
    computeConfluenceScore exampleSignals 0 =
      { consensus := "BUY", strength := 30, normalizedScore := some 0.304,
        agentCount := 4 } := by
  rw [computeConfluence_closed,
    if_neg (by rw [specTotalWeight_example]; norm_num),
    specNormalized_example, freshAgents_example,
    show |(117/385 : ℚ)| = 117/385 from abs_of_nonneg (by norm_num)]
  norm_num [jsRound, toFixed3]

/-- **C1.** For every state of the Hub's `agentSignals` map:
with at least one fresh weighted signal the consensus is labelled by the
±0.15 thresholds on
`normalized = Σ fresh sign(type)·(confidence/100)·weight / Σ fresh weight`,
its strength is `min(95, round(|normalized|·100))`, and the reported
`normalizedScore` is `normalized` rendered by `+(·).toFixed(3)`; with no
fresh signal the result is HOLD with strength 0.  On the concrete state
Trading:BUY@80, Market:HOLD@50, Prediction:SELL@60, Liquidity:BUY@70
(others absent), `normalized = 117/385 ≈ 0.304`, the consensus is BUY and
the strength is 30. -/
theorem hub_consensus_formula :
    (∀ (sig : String → Option HubSignal) (now : ℤ),
      (specTotalWeight sig now = 0 →
        computeConfluenceScore sig now =
          { consensus := "HOLD", strength := 0, normalizedScore := none,
            agentCount := 0 }) ∧
      (specTotalWeight sig now ≠ 0 →
        computeConfluenceScore sig now =
          { consensus :=
              if specNormalized sig now > 0.15 then "BUY"
              else if specNormalized sig now < -0.15 then "SELL" else "HOLD",
            strength := min 95 (jsRound (|specNormalized sig now| * 100)),
            normalizedScore := some (toFixed3 (specNormalized sig now)),
            agentCount := (freshAgents sig now).length })) ∧
    specNormalized exampleSignals 0 = 117 / 385 ∧
    |specNormalized exampleSignals 0 - 0.304| < 1 / 1000 ∧
    computeConfluenceScore exampleSignals 0 =
      { consensus := "BUY", strength := 30, normalizedScore := some 0.304,
        agentCount := 4 } := by
  refine ⟨fun sig now => ⟨fun h0 => ?_, fun h0 => ?_⟩,
    specNormalized_example, ?_, confluence_example⟩
  · rw [computeConfluence_closed, if_pos h0]
  · rw [computeConfluence_closed, if_neg h0]
  · rw [specNormalized_example, abs_sub_lt_iff]
    constructor <;> norm_num

theorem hub_consensus_formula_witness :
    specTotalWeight exampleSignals 0 ≠ 0 ∧
    computeConfluenceScore exampleSignals 0 =
      { consensus :=
          if specNormalized exampleSignals 0 > 0.15 then "BUY"
          else if specNormalized exampleSignals 0 < -0.15 then "SELL" else "HOLD",
        strength := min 95 (jsRound (|specNormalized exampleSignals 0| * 100)),
        normalizedScore := some (toFixed3 (specNormalized exampleSignals 0)),
        agentCount := (freshAgents exampleSignals 0).length } :=
  ⟨by rw [specTotalWeight_example]; norm_num,
   (hub_consensus_formula.1 exampleSignals 0).2
     (by rw [specTotalWeight_example]; norm_num)⟩

/-! ## Claim C2 — postSignal confidence validation -/

/-- **C2 counterexample.** With a wallet and confidence 101, the client's
`postSignal` does *not* fail before sending: it submits a transaction
carrying confidence 101 (there is no client-side confidence check in
`src/shared/wallet.js`). -/
theorem postSignal_counterexample :
    clientPostSignalTx true "BUY" 101 0 "r" =
      some { signalType := "BUY", confidence := 101, priceWei := 0, reason := "r" } ∧
    (clientPostSignalTx true "BUY" 101 0 "r").isSome = true := by
  have h : jsRound (101 : ℚ) = 101 := by norm_num [jsRound]
  constructor
  · simp [clientPostSignalTx, h]
  · simp [clientPostSignalTx]

/-- **C2 (amended).** The chain client's `postSignal` performs no
confidence validation: with a wallet it always submits the transaction
(rounding the confidence to an integer); the registry contract rejects
confidence 101 (`require(confidence <= 100)`), so the reverted call is
caught and `postSignal` returns `false` with the contract state unchanged,
while a confidence of exactly 100 is submitted and accepted on-chain. -/
theorem postSignal_confidence (st : ContractState) (hreg : st.isRegistered = true) :
    (∀ (t : String) (c : ℚ) (p : ℤ) (r : String),
        clientPostSignalTx true t c p r =
          some { signalType := t, confidence := jsRound c, priceWei := p,
                 reason := r }) ∧
    postSignalRun true st "BUY" 100 0 "r" =
      (true, { st with totalSignals := st.totalSignals + 1 }) ∧
    postSignalRun true st "BUY" 101 0 "r" = (false, st) := by
  have h100 : jsRound (100 : ℚ) = 100 := by norm_num [jsRound]
  have h101 : jsRound (101 : ℚ) = 101 := by norm_num [jsRound]
  refine ⟨fun t c p r => rfl, ?_, ?_⟩
  · simp [postSignalRun, clientPostSignalTx, contractPostSignal, h100, hreg]
  · simp [postSignalRun, clientPostSignalTx, contractPostSignal, h101, hreg]

theorem postSignal_confidence_witness :
    postSignalRun true ⟨true, 0⟩ "BUY" 100 0 "r" = (true, ⟨true, 1⟩) ∧
    postSignalRun true ⟨true, 0⟩ "BUY" 101 0 "r" = (false, ⟨true, 0⟩) :=
  ⟨(postSignal_confidence ⟨true, 0⟩ rfl).2.1,
   (postSignal_confidence ⟨true, 0⟩ rfl).2.2⟩

/-! ## Claim C4 — whale scanner block ranges -/

/-- **C4 counterexample.** Starting fresh at current block 1000, the first
scan covers blocks 501..1000, not 500..1000 as the claim states: the scan
range starts at `B - 500 + 1`, not `B - 500`. -/
theorem whale_first_scan_counterexample :
    (scanStep 0 1000 true).2 = some (501, 1000) ∧
    ¬ (501 : ℤ) = 1000 - 500 := by
  constructor
  · rfl
  · decide

lemma scanStep_shape (ls cur : ℤ) (ok : Bool) (h0 : 0 ≤ ls) (h5 : 500 ≤ cur) :
    ls ≤ (scanStep ls cur ok).1 ∧ 0 ≤ (scanStep ls cur ok).1 ∧
    (∀ r, (scanStep ls cur ok).2 = some r →
      ls < r.1 ∧ r.1 ≤ r.2 ∧ r.2 = (scanStep ls cur ok).1) := by
  have hfc : firstRunCursor ls cur = if ls = 0 then cur - 500 else ls := by
    rw [firstRunCursor, LOOKBACK_BLOCKS]
  unfold scanStep
  rw [hfc]
  by_cases h1 : ls = 0 <;> simp only [h1, if_pos, if_neg, if_true, if_false] <;>
    split_ifs <;>
    refine ⟨by omega, by omega, fun r hr => ?_⟩ <;>
    simp only [Option.some.injEq] at hr <;>
    (cases hr; constructor <;> omega)

lemma scanTrace_invariant (inputs : List (ℤ × Bool)) :
    ∀ ls : ℤ, 0 ≤ ls → (∀ p ∈ inputs, 500 ≤ p.1) →
      ls ≤ (scanTrace ls inputs).1 ∧ 0 ≤ (scanTrace ls inputs).1 ∧
      (∀ r ∈ (scanTrace ls inputs).2,
        ls < r.1 ∧ r.1 ≤ r.2 ∧ r.2 ≤ (scanTrace ls inputs).1) ∧
      ((scanTrace ls inputs).2.Pairwise fun r s => r.2 < s.1) := by
  induction inputs with
  | nil => intro ls h0 _; exact ⟨le_refl ls, h0, by simp [scanTrace], by simp [scanTrace]⟩
  | cons p t ih =>
    intro ls h0 hall
    obtain ⟨cur, ok⟩ := p
    have h5 : 500 ≤ cur := hall (cur, ok) (List.mem_cons_self _ _)
    have hall' : ∀ q ∈ t, 500 ≤ q.1 := fun q hq => hall q (List.mem_cons_of_mem _ hq)
    obtain ⟨hstep1, hstep0, hstepr⟩ := scanStep_shape ls cur ok h0 h5
    obtain ⟨iht1, iht0, ihtr, ihtp⟩ := ih (scanStep ls cur ok).1 hstep0 hall'
    have htrace : scanTrace ls ((cur, ok) :: t) =
        ((scanTrace (scanStep ls cur ok).1 t).1,
         match (scanStep ls cur ok).2 with
         | some r => r :: (scanTrace (scanStep ls cur ok).1 t).2
         | none => (scanTrace (scanStep ls cur ok).1 t).2) := rfl
    rw [htrace]
    cases hr : (scanStep ls cur ok).2 with
    | none =>
      refine ⟨le_trans hstep1 iht1, iht0, ?_, ihtp⟩
      intro r hrmem
      obtain ⟨hra, hrb, hrc⟩ := ihtr r hrmem
      exact ⟨lt_of_le_of_lt hstep1 hra, hrb, hrc⟩
    | some r0 =>
      obtain ⟨h0a, h0b, h0c⟩ := hstepr r0 hr
      refine ⟨le_trans hstep1 iht1, iht0, ?_, ?_⟩
      · intro r hrmem
        rcases List.mem_cons.mp hrmem with hrr | hrmem'
        · subst hrr
          exact ⟨h0a, h0b, h0c ▸ iht1⟩
        · obtain ⟨hra, hrb, hrc⟩ := ihtr r hrmem'
          exact ⟨lt_of_le_of_lt hstep1 hra, hrb, hrc⟩
      · refine List.pairwise_cons.mpr ⟨?_, ihtp⟩
        intro s hsmem
        obtain ⟨hsa, _, _⟩ := ihtr s hsmem
        calc r0.2 = (scanStep ls cur ok).1 := h0c
          _ < s.1 := hsa

/-- **C4 (amended).** Within one Whale-agent instance (block numbers being
at least the 500-block lookback): the first scan at current block `B`
covers `B − 500 + 1 = B − 499` through `B`; every later scan covers
`lastScannedBlock + 1` through the current block; the cursor is
monotonically non-decreasing across scans; and the scanned ranges are
pairwise disjoint — no block is ever scanned twice. -/
theorem whale_cursor_invariant :
    (∀ B : ℤ, scanStep 0 B true = (B, some (B - LOOKBACK_BLOCKS + 1, B))) ∧
    (∀ ls cur : ℤ, ls ≠ 0 → ls < cur →
      scanStep ls cur true = (cur, some (ls + 1, cur))) ∧
    (∀ (ls cur : ℤ) (ok : Bool), 0 ≤ ls → 500 ≤ cur →
      ls ≤ (scanStep ls cur ok).1) ∧
    (∀ inputs : List (ℤ × Bool), (∀ p ∈ inputs, 500 ≤ p.1) →
      ((scanTrace 0 inputs).2.Pairwise fun r s => r.2 < s.1) ∧
      (∀ r ∈ (scanTrace 0 inputs).2, r.1 ≤ r.2)) := by
  refine ⟨?_, ?_, ?_, ?_⟩
  · intro B
    have hfc : firstRunCursor 0 B = B - LOOKBACK_BLOCKS := if_pos rfl
    unfold scanStep
    rw [hfc, if_neg (by rw [LOOKBACK_BLOCKS]; omega), if_pos rfl]
  · intro ls cur h0 hlt
    have hfc : firstRunCursor ls cur = ls := if_neg h0
    unfold scanStep
    rw [hfc, if_neg (by omega), if_pos rfl]
  · intro ls cur ok h0 h5
    exact (scanStep_shape ls cur ok h0 h5).1
  · intro inputs hall
    obtain ⟨_, _, hr, hp⟩ := scanTrace_invariant inputs 0 le_rfl hall
    exact ⟨hp, fun r hm => (hr r hm).2.1⟩

theorem whale_cursor_invariant_witness :
    scanStep 700 800 true = (800, some (701, 800)) ∧
    ((scanTrace 0 [(1000, true), (1050, true)]).2.Pairwise fun r s => r.2 < s.1) :=
  ⟨whale_cursor_invariant.2.1 700 800 (by decide) (by decide),
   (whale_cursor_invariant.2.2.2 [(1000, true), (1050, true)] (by decide)).1⟩

/-! ## Claim C6 — price-service anomaly rejection -/

lemma fetchPriceFallback_anomalous (st : FetchState) (now : ℤ) (duckPerMon : ℚ)
    (hpos : 0 < duckPerMon)
    (hanom : 1 / duckPerMon < 0.0000001 ∨ 1 / duckPerMon > 1000) :
    fetchPriceFallback st now true (some duckPerMon) =
      (some { price := st.lastKnownPrice, timestamp := now, source := "cached",
              volume := 0 }, st) := by
  simp only [fetchPriceFallback, if_true]
  rw [if_pos hpos, if_pos hanom]

/-- **C6 counterexample.** Empty cache, failed primary source, focal token,
chain quote yielding computed price `1e-8`: `fetchPrice` does not return
nil — it returns a sample carrying the module's last-known price (initial
sentinel `0.000019`) with source `"cached"` (not `"cache"`).  Moreover a
computed price of exactly `1e-7` is *accepted* (source `"nad.fun Lens"`),
so the rejection band is `< 1e-7`, not `≤ 1e-7`. -/
theorem fetchPrice_anomalous_counterexample :
    (fetchPrice initialFetchState 0 true none (some (10 ^ 8))).1 =
      some { price := 0.000019, timestamp := 0, source := "cached", volume := 0 } ∧
    (fetchPrice initialFetchState 0 true none (some (10 ^ 8))).1 ≠ none ∧
    Option.map PriceSample.source
        (fetchPrice initialFetchState 0 true none (some (10 ^ 8))).1 ≠ some "cache" ∧
    (fetchPrice initialFetchState 0 true none (some (10 ^ 7))).1 =
      some { price := 1 / 10 ^ 7, timestamp := 0, source := "nad.fun Lens",
             volume := 0 } := by
  have h1 : fetchPrice initialFetchState 0 true none (some (10 ^ 8)) =
      (some { price := 0.000019, timestamp := 0, source := "cached", volume := 0 },
       initialFetchState) := by
    show fetchPricePrimary initialFetchState 0 true none (some (10 ^ 8)) = _
    show fetchPriceFallback initialFetchState 0 true (some (10 ^ 8)) = _
    rw [fetchPriceFallback_anomalous initialFetchState 0 (10 ^ 8) (by norm_num)
      (Or.inl (by norm_num))]
    norm_num [initialFetchState]
  have h2 : fetchPrice initialFetchState 0 true none (some (10 ^ 7)) =
      (some { price := 1 / 10 ^ 7, timestamp := 0, source := "nad.fun Lens",
              volume := 0 },
       { cache := some ({ price := 1 / 10 ^ 7, timestamp := 0,
                          source := "nad.fun Lens", volume := 0 }, 0),
         lastKnownPrice := 1 / 10 ^ 7 }) := by
    show fetchPriceFallback initialFetchState 0 true (some (10 ^ 7)) = _
    simp only [fetchPriceFallback, if_true]
    rw [if_pos (by norm_num : (0:ℚ) < 10 ^ 7), if_neg (by norm_num)]
  refine ⟨by rw [h1], by rw [h1]; simp, by rw [h1]; simp, by rw [h2]⟩

/-- **C6 (amended).** With a non-fresh cache slot, a failed primary
source, and the focal token: when the on-chain fallback quote is positive
and the computed price `1/duckPerMon` is `< 1e-7` (strictly) or `> 1e3`,
`fetchPrice` rejects the value as anomalous and returns a sample carrying
the module's last-known price with `source = "cached"`, leaving the cache
and the last-known price unchanged — never nil from this branch (the
last-known price is initialised to the nonzero sentinel `0.000019`). -/
theorem fetchPrice_anomalous (st : FetchState) (now : ℤ) (duckPerMon : ℚ)
    (hcache : ∀ d ts, st.cache = some (d, ts) → ¬ now - ts < CACHE_TTL)
    (hpos : 0 < duckPerMon)
    (hanom : 1 / duckPerMon < 0.0000001 ∨ 1 / duckPerMon > 1000) :
    fetchPrice st now true none (some duckPerMon) =
      (some { price := st.lastKnownPrice, timestamp := now, source := "cached",
              volume := 0 }, st) := by
  have hfall := fetchPriceFallback_anomalous st now duckPerMon hpos hanom
  unfold fetchPrice
  cases hc : st.cache with
  | none =>
    show fetchPricePrimary st now true none (some duckPerMon) = _
    show fetchPriceFallback st now true (some duckPerMon) = _
    exact hfall
  | some dts =>
    obtain ⟨d, ts⟩ := dts
    show (if now - ts < CACHE_TTL then
        (some { price := d.price, timestamp := d.timestamp, source := "cache",
                volume := d.volume }, st)
      else fetchPricePrimary st now true none (some duckPerMon)) = _
    rw [if_neg (hcache d ts hc)]
    show fetchPriceFallback st now true (some duckPerMon) = _
    exact hfall

theorem fetchPrice_anomalous_witness :
    fetchPrice initialFetchState 5 true none (some (10 ^ 9)) =
      (some { price := 0.000019, timestamp := 5, source := "cached", volume := 0 },
       initialFetchState) :=
  fetchPrice_anomalous initialFetchState 5 (10 ^ 9)
    (fun d ts h => by simp [initialFetchState] at h)
    (by norm_num) (Or.inl (by norm_num))

/-! ## Claim C7 — MACD on constant series -/

lemma sum_replicate_q (m : ℕ) (c : ℚ) : (List.replicate m c).sum = m * c := by
  rw [List.sum_replicate, nsmul_eq_mul]

lemma lastN_replicate (n m : ℕ) (c : ℚ) (h : m ≤ n) :
    lastN (List.replicate n c) m = List.replicate m c := by
  rw [lastN, List.length_replicate, List.drop_replicate]
  congr 1
  omega

lemma sma_replicate (n p : ℕ) (c : ℚ) (hp : 1 ≤ p) (hn : p ≤ n) :
    calculateSMA (List.replicate n c) p = c := by
  rw [calculateSMA, if_neg (by simp; omega), lastN_replicate n p c hn,
    sum_replicate_q]
  have hp' : (p : ℚ) ≠ 0 := Nat.cast_ne_zero.mpr (by omega)
  field_simp

lemma ema_fold_const (k c : ℚ) (m : ℕ) :
    (List.replicate m c).foldl (fun ema p => p * k + ema * (1 - k)) c = c := by
  induction m with
  | zero => rfl
  | succ m ih =>
    rw [List.replicate_succ, List.foldl_cons,
      show c * k + c * (1 - k) = c by ring, ih]

lemma ema_replicate (n p : ℕ) (c : ℚ) (hp : 1 ≤ p) (hn : 1 ≤ n) :
    calculateEMA (List.replicate n c) p = c := by
  rw [calculateEMA, if_neg (by simp; omega)]
  by_cases h : n < p
  · rw [if_pos (by simpa using h)]
    simp only [List.length_replicate]
    exact sma_replicate n n c hn le_rfl
  · rw [if_neg (by simpa using h)]
    rw [List.take_replicate, show min p n = p by omega,
      sma_replicate p p c hp le_rfl, List.drop_replicate]
    exact ema_fold_const _ c _

lemma getLast_getD_replicate_zero (m : ℕ) :
    ((List.replicate m (0 : ℚ)).getLast?.getD 0) = 0 := by
  cases hg : (List.replicate m (0 : ℚ)).getLast? with
  | none => rfl
  | some b =>
    obtain ⟨hne, hb⟩ := List.mem_getLast?_eq_getLast (Option.mem_def.mpr hg)
    have hmem : b ∈ List.replicate m (0 : ℚ) := hb ▸ List.getLast_mem hne
    simp [hg, List.eq_of_mem_replicate hmem]

lemma macd_replicate (n : ℕ) (c : ℚ) :
    calculateMACD (List.replicate n c) 12 26 9 = ⟨0, 0, 0⟩ := by
  simp only [calculateMACD]
  by_cases h : n < 35
  · rw [if_pos (by simp; omega)]
  · rw [if_neg (by simp; omega)]
    have hlb : min (9 + 10) ((List.replicate n c).length - 26) = min 19 (n - 26) := by
      simp
    rw [hlb]
    have hlb9 : 9 ≤ min 19 (n - 26) := by omega
    have hzero : ((List.range (min 19 (n - 26))).map fun i =>
        calculateEMA ((List.replicate n c).take ((List.replicate n c).length - i)) 12
          - calculateEMA ((List.replicate n c).take ((List.replicate n c).length - i)) 26) =
        List.replicate (min 19 (n - 26)) 0 := by
      rw [List.eq_replicate_iff]
      refine ⟨by simp, ?_⟩
      intro b hb
      obtain ⟨i, hi, rfl⟩ := List.mem_map.mp hb
      have hi' : i < min 19 (n - 26) := List.mem_range.mp hi
      rw [List.length_replicate, List.take_replicate,
        show min (n - i) n = n - i by omega,
        ema_replicate (n - i) 12 c (by omega) (by omega),
        ema_replicate (n - i) 26 c (by omega) (by omega), sub_self]
    rw [hzero, List.reverse_replicate, getLast_getD_replicate_zero,
      if_pos (by simp; omega),
      ema_replicate (min 19 (n - 26)) 9 0 (by omega) (by omega), sub_self]

/-- **C7.** For every constant price series (all elements equal, any
length), `calculateMACD` (with the default 12/26/9 periods) returns MACD
line 0, signal line 0 and histogram 0. -/
theorem macd_constant_series (l : List ℚ) (c : ℚ) (hconst : ∀ x ∈ l, x = c) :
    calculateMACD l 12 26 9 = { value := 0, signal := 0, histogram := 0 } := by
  rw [List.eq_replicate_length.mpr hconst]
  exact macd_replicate l.length c

theorem macd_constant_series_witness :
    calculateMACD (List.replicate 40 (3 / 7 : ℚ)) 12 26 9 =
      { value := 0, signal := 0, histogram := 0 } :=
  macd_constant_series (List.replicate 40 (3 / 7)) (3 / 7)
    (fun _ hx => List.eq_of_mem_replicate hx)

/-! ## Claim C8 — trading signal thresholds -/

lemma getLast_getD_replicate (m : ℕ) (c d : ℚ) (hm : 1 ≤ m) :
    (List.replicate m c).getLast?.getD d = c := by
  have hne : List.replicate m c ≠ [] := by simp; omega
  rw [List.getLast?_eq_getLast_of_ne_nil hne]
  simp [List.eq_of_mem_replicate (List.getLast_mem hne)]

lemma head_getD_replicate (m : ℕ) (c d : ℚ) (hm : 1 ≤ m) :
    (List.replicate m c).head?.getD d = c := by
  cases m with
  | zero => omega
  | succ m => rw [List.replicate_succ]; rfl

lemma priceChanges_replicate (m : ℕ) (c : ℚ) :
    priceChanges (List.replicate m c) = List.replicate (m - 1) 0 := by
  rw [priceChanges, List.drop_replicate, List.zip_replicate, List.map_replicate]
  have : min m (m - 1) = m - 1 := by omega
  rw [this]
  norm_num

lemma rsi_replicate (n p : ℕ) (c : ℚ) (hp : 1 ≤ p) (hn : p + 1 ≤ n) :
    calculateRSI (List.replicate n c) p = 100 := by
  simp only [calculateRSI]
  rw [if_neg (by simp; omega), lastN_replicate n (p + 1) c hn,
    priceChanges_replicate]
  have hp1 : p + 1 - 1 = p := by omega
  rw [hp1]
  have hle : List.filter (fun c => decide (¬ c > 0)) (List.replicate p (0 : ℚ)) =
      List.replicate p 0 := by
    rw [List.filter_eq_self]
    intro a ha
    simp [List.eq_of_mem_replicate ha]
  rw [hle, sum_replicate_q]
  norm_num

lemma stoch_const30 :
    calculateStochasticRSI (List.replicate 30 (1 : ℚ)) 14 14 3 3 = ⟨50, 50⟩ := by
  rw [calculateStochasticRSI, if_pos (by simp)]

lemma ichimoku_const30 :
    calculateIchimokuCloud (List.replicate 30 (1 : ℚ)) = ⟨0, 0, 0, 0, "NEUTRAL"⟩ := by
  rw [calculateIchimokuCloud, if_pos (by simp)]

lemma bollinger_const30 :
    calculateBollingerBands (fun _ => 0) (List.replicate 30 (1 : ℚ)) 20 2 =
      ⟨1, 1, 1, 0, 50⟩ := by
  simp only [calculateBollingerBands]
  rw [if_neg (by simp), sma_replicate 30 20 1 (by norm_num) (by norm_num),
    getLast_getD_replicate 30 1 0 (by norm_num)]
  norm_num

lemma trend_const30 :
    calculateTrendStrength (List.replicate 30 (1 : ℚ)) = ⟨"NEUTRAL", 10⟩ := by
  simp only [calculateTrendStrength]
  rw [if_neg (by simp), sma_replicate 30 5 1 (by norm_num) (by norm_num),
    sma_replicate 30 10 1 (by norm_num) (by norm_num),
    sma_replicate 30 20 1 (by norm_num) (by norm_num)]
  norm_num

lemma momentum_const30 : calculateMomentum (List.replicate 30 (1 : ℚ)) 10 = 0 := by
  simp only [calculateMomentum]
  rw [if_neg (by simp)]
  rw [getLast_getD_replicate 30 1 0 (by norm_num)]
  norm_num [List.drop_replicate, head_getD_replicate]

lemma vwap_const30 :
    calculateVWAP (List.replicate 30 (1 : ℚ)) (List.replicate 30 (1 : ℚ)) = 1 := by
  simp only [calculateVWAP]
  rw [if_neg (by simp)]
  norm_num [List.take_replicate, List.zip_replicate, List.map_replicate,
    sum_replicate_q, jsOrQ]

lemma tradingScores_const30 :
    tradingScores (fun _ => 0) (List.replicate 30 (1 : ℚ)) [] = (0, 0.4) := by
  norm_num [tradingScores, List.map_replicate, rsi_replicate 30 14 1,
    macd_replicate, bollinger_const30, stoch_const30, trend_const30,
    momentum_const30, vwap_const30, ichimoku_const30,
    getLast_getD_replicate 30 1 0]
  simp

lemma netScore_const30 :
    indicatorNetScore (fun _ => 0) (List.replicate 30 (1 : ℚ)) [] = -0.4 := by
  rw [indicatorNetScore, tradingScores_const30]
  norm_num

/-- **C8.** For every price history shorter than 30 samples the Trading
agent's signal generator returns HOLD with confidence 30 and reason
"Insufficient data"; with at least 30 samples it returns BUY when the
weighted indicator net score exceeds +0.15 and SELL when it is below
−0.15 (otherwise HOLD), with BUY/SELL confidence
`min(95, 50 + |net|·100)` rounded to the nearest integer (`Math.round`
is applied to the returned confidence) and never below 25. -/
theorem trading_signal_rules (jsSqrt : ℚ → ℚ) (prices volumes : List ℚ) :
    (prices.length < 30 →
      generateSignal jsSqrt prices volumes =
        { type := "HOLD", confidence := 30, reason := "Insufficient data",
          price := prices.getLast?.getD 0 }) ∧
    (30 ≤ prices.length →
      (indicatorNetScore jsSqrt prices volumes > 0.15 →
        (generateSignal jsSqrt prices volumes).type = "BUY" ∧
        (generateSignal jsSqrt prices volumes).confidence =
          jsRound (min (50 + |indicatorNetScore jsSqrt prices volumes| * 100) 95)) ∧
      (indicatorNetScore jsSqrt prices volumes < -0.15 →
        (generateSignal jsSqrt prices volumes).type = "SELL" ∧
        (generateSignal jsSqrt prices volumes).confidence =
          jsRound (min (50 + |indicatorNetScore jsSqrt prices volumes| * 100) 95)) ∧
      (¬ indicatorNetScore jsSqrt prices volumes > 0.15 →
        ¬ indicatorNetScore jsSqrt prices volumes < -0.15 →
        (generateSignal jsSqrt prices volumes).type = "HOLD") ∧
      25 ≤ (generateSignal jsSqrt prices volumes).confidence) := by
  constructor
  · intro h
    rw [generateSignal, if_pos h]
  · intro hlen
    have hnot : ¬ prices.length < 30 := by omega
    have habs : 0 ≤ |indicatorNetScore jsSqrt prices volumes| := abs_nonneg _
    simp only [generateSignal]
    rw [if_neg hnot]
    refine ⟨fun hbuy => ?_, fun hsell => ?_, fun hnb hns => ?_, ?_⟩
    · rw [if_pos hbuy]
      exact ⟨rfl, rfl⟩
    · rw [if_neg (by intro hc; linarith), if_pos hsell]
      exact ⟨rfl, rfl⟩
    · rw [if_neg hnb, if_neg hns]
    · split_ifs with h1 h2 <;>
        (simp only [jsRound]; rw [Int.le_floor]; push_cast)
      · have hmin : (50 : ℚ) ≤
            min (50 + |indicatorNetScore jsSqrt prices volumes| * 100) 95 :=
          le_min (by linarith) (by norm_num)
        linarith
      · have hmin : (50 : ℚ) ≤
            min (50 + |indicatorNetScore jsSqrt prices volumes| * 100) 95 :=
          le_min (by linarith) (by norm_num)
        linarith
      · linarith

theorem trading_signal_rules_witness :
    generateSignal (fun _ => 0) [1] [] =
      { type := "HOLD", confidence := 30, reason := "Insufficient data",
        price := 1 } ∧
    (generateSignal (fun _ => 0) (List.replicate 30 1) []).type = "SELL" ∧
    25 ≤ (generateSignal (fun _ => 0) (List.replicate 30 1) []).confidence := by
  have h1 := (trading_signal_rules (fun _ => 0) [1] []).1 (by norm_num)
  have h2 := ((trading_signal_rules (fun _ => 0) (List.replicate 30 1) []).2
    (by simp)).2.1 (by rw [netScore_const30]; norm_num)
  have h3 := ((trading_signal_rules (fun _ => 0) (List.replicate 30 1) []).2
    (by simp)).2.2.2
  exact ⟨by rw [h1]; rfl, h2.1, h3⟩


/-! ## Claim C5 — prediction horizons -/

lemma generatePredictions_horizons (jsSqrt : ℚ → ℚ)
    (nets : String → List PPoint → ℚ) (rand : ℕ → ℚ) (now : ℤ)
    (prices : List PPoint) (hlen : 50 ≤ prices.length) :
    (generatePredictions jsSqrt nets rand now prices).map PredictionOut.horizon =
      [5, 15, 60] := by
  have h50 : ¬ prices.length < 50 := by omega
  have h30 : ¬ prices.length < 30 := by omega
  unfold generatePredictions
  rw [if_neg h50]
  unfold calculateFeatures
  rw [if_neg h30]
  rfl

/-- **C5 counterexample.** On a 50-sample history (with concrete network
outputs and random draws), the Prediction agent produces predictions for
the horizons 5, 15 and 60 minutes only — there is no 240-minute horizon,
contradicting the claimed horizon set {5, 15, 60, 240}
(`CONFIG.PREDICTION_HORIZONS = [5, 15, 60]`). -/
theorem prediction_horizons_counterexample :
    ((generatePredictions (fun _ => 0) (fun _ _ => 0) (fun _ => 0) 0
        (List.replicate 50 ⟨1⟩)).map PredictionOut.horizon) = [5, 15, 60] ∧
    ¬ ∃ p ∈ generatePredictions (fun _ => 0) (fun _ _ => 0) (fun _ => 0) 0
        (List.replicate 50 ⟨1⟩), p.horizon = 240 := by
  have h := generatePredictions_horizons (fun _ => 0) (fun _ _ => 0) (fun _ => 0) 0
    (List.replicate 50 ⟨1⟩) (by simp)
  refine ⟨h, ?_⟩
  rintro ⟨p, hp, h240⟩
  have hm : p.horizon ∈ [5, 15, 60] := by
    rw [← h]
    exact List.mem_map_of_mem PredictionOut.horizon hp
  rw [h240] at hm
  exact absurd hm (by decide)

/-- **C5 (amended).** On every prediction cycle with sufficient history
(at least 50 samples), the Prediction agent produces exactly one
prediction for each horizon h in {5, 15, 60} minutes, each computed from
the per-horizon simulated neural network's output plus an RSI/trend
technical boost (not from a four-sub-model ensemble, and with no
240-minute horizon). -/
theorem prediction_horizons (jsSqrt : ℚ → ℚ) (nets : String → List PPoint → ℚ)
    (rand : ℕ → ℚ) (now : ℤ) (prices : List PPoint)
    (hlen : 50 ≤ prices.length) :
    (generatePredictions jsSqrt nets rand now prices).map PredictionOut.horizon =
      PREDICTION_HORIZONS ∧
    (generatePredictions jsSqrt nets rand now prices).length = 3 := by
  have h := generatePredictions_horizons jsSqrt nets rand now prices hlen
  refine ⟨h, ?_⟩
  have hl := congrArg List.length h
  simpa using hl

theorem prediction_horizons_witness :
    (generatePredictions (fun _ => 1) (fun _ _ => 1) (fun _ => 1 / 2) 7
        (List.replicate 60 ⟨2⟩)).map PredictionOut.horizon = PREDICTION_HORIZONS :=
  (prediction_horizons (fun _ => 1) (fun _ _ => 1) (fun _ => 1 / 2) 7
    (List.replicate 60 ⟨2⟩) (by simp)).1

/-! ## Claim C9 — advisor retry policy -/

/-- **C9 counterexample.** When every attempt fails, `callGeminiAPI` makes
4 attempts in total (1 initial + `maxRetries = 3`), not at most 3, and the
waits between consecutive attempts are a constant 1000 ms each, not
1s/2s/4s. -/
theorem gemini_retry_counterexample :
    callGeminiAPI true (fun _ => .fail) = (none, 4, [1000, 1000, 1000]) ∧
    ¬ (callGeminiAPI true (fun _ => .fail)).2.1 ≤ 3 ∧
    (callGeminiAPI true (fun _ => .fail)).2.2 ≠ [1000, 2000, 4000] := by
  refine ⟨rfl, by decide, by decide⟩

/-- **C9 (amended).** When the remote endpoint fails on every attempt, the
advisor call makes exactly 4 attempts in total (one initial try plus
`AI_CONFIG.maxRetries = 3` retries), waits a constant 1 s between
consecutive attempts, and returns `null` (without raising) after the final
failure. -/
theorem gemini_retry_behavior (attempt : ℕ → GeminiAttempt)
    (hfail : ∀ i, i ≤ 3 → attempt i = .fail) :
    callGeminiAPI true attempt = (none, 4, [1000, 1000, 1000]) := by
  have h0 := hfail 0 (by norm_num)
  have h1 := hfail 1 (by norm_num)
  have h2 := hfail 2 (by norm_num)
  have h3 := hfail 3 (by norm_num)
  simp [callGeminiAPI, AI_maxRetries, geminiRetry, h0, h1, h2, h3]

theorem gemini_retry_behavior_witness :
    callGeminiAPI true (fun _ => .fail) = (none, 4, [1000, 1000, 1000]) :=
  gemini_retry_behavior (fun _ => .fail) (fun _ _ => rfl)

end Duckmon
